import Mathlib

/-!
Shallow embedding of the sagemaker-containers bootstrap toolkit
(container_support/environment.py, container_support/serving.py,
sagemaker_containers/trainer.py) and proofs of the testable properties
of its specification.

Python dicts holding string keys are modelled as association lists with
a lookup that returns the binding of the first matching key; filesystem
and process state are passed explicitly; code that can raise returns
Except values.
-/

/-- Lookup in an association list with string-like keys, modelling Python
dict access: the first binding of the key wins, absence gives Option.none. -/
def alookup {V : Type} : List (String × V) → String → Option V
  | [], _ => Option.none
  | (k, v) :: rest, key => if k = key then some v else alookup rest key

/-- Models os.path.join for two components, as used by the repository:
an absolute second component replaces the first, an empty or slash-terminated
first component is concatenated directly, otherwise a slash separator is
inserted. -/
def pathJoin (a b : String) : String :=
  if b.startsWith "/" then b
  else if a = "" then b
  else if a.endsWith "/" then a ++ b
  else a ++ "/" ++ b

/-- Result of inspect.getargspec on a Python callable: the list of declared
formal parameter names, and whether the callable declares a catch-all
keyword parameter (argspec field keywords, i.e. a double-star parameter). -/
structure ArgSpec where
  args : List String
  keywords : Bool

/-- Embeds TrainingEnvironment.matching_parameters
(container_support/environment.py lines 198-210). The available map is
self.kwargs_for_training. If the callable declares a catch-all keyword
parameter, the whole available map is returned; otherwise the loop over
the declared argument names keeps each name that is not the receiver
parameter self and is a key of the available map, bound to its available
value. -/
def select_args {V : Type} (available : List (String × V)) : List String → List (String × V)
  | [] => []
  | arg :: rest =>
    if arg = "self" then select_args available rest
    else match alookup available arg with
      | some v => (arg, v) :: select_args available rest
      | Option.none => select_args available rest

def matching_parameters {V : Type} (fnspec : ArgSpec) (available : List (String × V)) :
    List (String × V) :=
  if fnspec.keywords then available
  else select_args available fnspec.args

theorem alookup_select_args {V : Type} (available : List (String × V))
    (args : List String) (k : String) :
    alookup (select_args available args) k =
    (if k ≠ "self" ∧ k ∈ args then alookup available k else Option.none) := by
  induction args with
  | nil => simp [alookup, select_args]
  | cons a rest ih =>
    by_cases ha : a = "self"
    · rw [select_args, if_pos ha, ih]
      subst ha
      by_cases hks : k = "self"
      · simp [hks]
      · simp [hks, List.mem_cons]
    · rw [select_args, if_neg ha]
      cases hav : alookup available a with
      | none =>
        rw [ih]
        by_cases hks : k = "self"
        · simp [hks]
        · by_cases hk : k = a
          · subst hk
            simp [hks, hav, List.mem_cons]
          · simp [hks, List.mem_cons, hk]
      | some v =>
        by_cases hk : a = k
        · subst hk
          simp [alookup, ha, hav, List.mem_cons]
        · rw [alookup, if_neg hk, ih]
          by_cases hks : k = "self"
          · simp [hks]
          · simp [hks, List.mem_cons, Ne.symm hk]

/-- Claim C1: for every callable and every available-value map, the argument
matcher returns exactly the available map when the callable declares a
catch-all keyword parameter; otherwise it returns exactly the submap of the
available map whose keys are declared formal-parameter names other than the
receiver parameter self and are present in the available map, so a declared
parameter absent from the available map is omitted. -/
theorem matching_parameters_correct {V : Type} (fnspec : ArgSpec)
    (available : List (String × V)) :
    (fnspec.keywords = true → matching_parameters fnspec available = available) ∧
    (fnspec.keywords = false → ∀ k,
      alookup (matching_parameters fnspec available) k =
        (if k ≠ "self" ∧ k ∈ fnspec.args then alookup available k else Option.none)) := by
  constructor
  · intro h
    simp [matching_parameters, h]
  · intro h k
    simp only [matching_parameters, h, Bool.false_eq_true, if_false]
    exact alookup_select_args available fnspec.args k

theorem matching_parameters_correct_witness :
    (matching_parameters ⟨["a", "b"], true⟩ [("a", 1), ("c", 2)] = [("a", 1), ("c", 2)]) ∧
    (alookup (matching_parameters ⟨["self", "a", "b"], false⟩ [("a", 1), ("c", 2)]) "a" =
      (if "a" ≠ "self" ∧ "a" ∈ ["self", "a", "b"] then
        alookup [("a", 1), ("c", 2)] "a" else Option.none)) :=
  ⟨(matching_parameters_correct ⟨["a", "b"], true⟩ [("a", 1), ("c", 2)]).1 rfl,
   (matching_parameters_correct ⟨["self", "a", "b"], false⟩ [("a", 1), ("c", 2)]).2 rfl "a"⟩

/-! ## Serving: user-module download (container_support/serving.py lines 40-60) -/

/-- State of the code staging directory env.code_dir: Option.none means the
directory does not exist, some b means it exists and b tells whether the
user script file env.code_dir/env.user_script_name is present in it. -/
def CodeDirState : Type := Option Bool

/-- Whether os.path.exists(os.path.join(env.code_dir, env.user_script_name))
holds in the given directory state. -/
def script_exists : CodeDirState → Bool
  | some b => b
  | Option.none => false

/-- Models shutil.rmtree on the code directory: removing an existing
directory leaves it absent; removing an absent directory raises OSError. -/
def rmtree : CodeDirState → Except Unit CodeDirState
  | some _ => Except.ok Option.none
  | Option.none => Except.error ()

/-- Outcome of one env.download_user_module attempt: success fully populates
the code directory; failure raises and leaves the code directory in some
partially populated state carried by the constructor. -/
inductive DownloadOutcome : Type
  | ok : DownloadOutcome
  | fail (leftover : CodeDirState) : DownloadOutcome

/-- Result of one call to Server._download_user_module_internal: the final
code-directory state, how many downloads were performed, and whether the
call re-raised the download failure to its caller. -/
structure DownloadStep where
  fs : CodeDirState
  downloads : Nat
  raised : Bool

/-- Embeds Server._download_user_module_internal
(container_support/serving.py lines 47-60): if the user script file already
exists in the code directory, return without downloading; otherwise run
download_user_module, and on any failure attempt shutil.rmtree on the code
directory, swallowing the OSError raised when it is already absent, then
re-raise the failure. -/
def download_user_module_internal (fs : CodeDirState) (dl : DownloadOutcome) :
    DownloadStep :=
  if script_exists fs then ⟨fs, 0, false⟩
  else match dl with
    | DownloadOutcome.ok => ⟨some true, 1, false⟩
    | DownloadOutcome.fail leftover =>
      let cleaned := match rmtree leftover with
        | Except.ok fs2 => fs2
        | Except.error _ => leftover
      ⟨cleaned, 1, true⟩

/-- Claim C2: whenever the download/extract step fails, whatever partial
state the failed attempt left in the target code directory, the directory
is removed (no partial state survives) and the error is re-raised to the
caller, so a later retry starts from a clean, absent directory. -/
theorem download_failure_cleans_code_dir (fs : CodeDirState) (leftover : CodeDirState)
    (h : script_exists fs = false) :
    download_user_module_internal fs (DownloadOutcome.fail leftover) =
      ⟨Option.none, 1, true⟩ := by
  cases leftover with
  | none => simp [download_user_module_internal, h, rmtree]
  | some b => simp [download_user_module_internal, h, rmtree]

theorem download_failure_cleans_code_dir_witness :
    download_user_module_internal (some false) (DownloadOutcome.fail (some false)) =
      ⟨Option.none, 1, true⟩ :=
  download_failure_cleans_code_dir (some false) (some false) rfl

/-- Claim C3: module loading is idempotent: if the user script file already
exists in the code directory the download is skipped entirely (zero
downloads, state unchanged), and running the load step twice from a state
without the script, with downloads succeeding, performs exactly one
download in total. -/
theorem download_is_idempotent (fs : CodeDirState) :
    (script_exists fs = true → ∀ dl,
      download_user_module_internal fs dl = ⟨fs, 0, false⟩) ∧
    (script_exists fs = false →
      (download_user_module_internal fs DownloadOutcome.ok).downloads +
        (download_user_module_internal
          (download_user_module_internal fs DownloadOutcome.ok).fs
          DownloadOutcome.ok).downloads = 1) := by
  constructor
  · intro h dl
    simp [download_user_module_internal, h]
  · intro h
    simp only [download_user_module_internal, h, Bool.false_eq_true, if_false]
    simp [script_exists]

theorem download_is_idempotent_witness :
    (download_user_module_internal (some true) DownloadOutcome.ok =
      ⟨some true, 0, false⟩) ∧
    ((download_user_module_internal Option.none DownloadOutcome.ok).downloads +
      (download_user_module_internal
        (download_user_module_internal Option.none DownloadOutcome.ok).fs
        DownloadOutcome.ok).downloads = 1) :=
  ⟨(download_is_idempotent (some true)).1 rfl DownloadOutcome.ok,
   (download_is_idempotent Option.none).2 rfl⟩

/-! ## Serving: termination-signal handler (container_support/serving.py lines 62-77) -/

/-- The two Unix signals the handler forwards. -/
inductive USignal : Type
  | sigquit : USignal
  | sigterm : USignal

/-- Models os.kill: delivering a signal to a live process succeeds and is
recorded; signalling a process that has already exited raises OSError. -/
def os_kill (alive : Nat → Bool) (pid : Nat) (s : USignal) :
    Except Unit (Nat × USignal) :=
  if alive pid then Except.ok (pid, s) else Except.error ()

/-- Observable outcome of Server._sigterm_handler: the signals actually
delivered, in order, and the exit status passed to sys.exit. -/
structure SigtermResult where
  delivered : List (Nat × USignal)
  exit_code : Nat

/-- Embeds Server._sigterm_handler (container_support/serving.py lines
62-77): if an nginx pid is present, send it SIGQUIT, swallowing the OSError
of an already-exited process; then send the gunicorn pid SIGTERM, again
swallowing OSError; then sys.exit(0). -/
def sigterm_handler (alive : Nat → Bool) (nginx_pid : Option Nat)
    (gunicorn_pid : Nat) : SigtermResult :=
  let d1 := match nginx_pid with
    | some p => match os_kill alive p USignal.sigquit with
      | Except.ok s => [s]
      | Except.error _ => []
    | Option.none => []
  let d2 := match os_kill alive gunicorn_pid USignal.sigterm with
    | Except.ok s => [s]
    | Except.error _ => []
  ⟨d1 ++ d2, 0⟩

/-- Claim C8: on a termination signal the handler forwards SIGQUIT to the
reverse-proxy process exactly when one is present and still alive, forwards
SIGTERM to the worker-pool process when it is alive, swallows the OS error
for any signalled process that has already exited (the handler still runs
to completion for every aliveness state), and exits the supervisor with
status 0. -/
theorem sigterm_handler_correct (alive : Nat → Bool) (nginx_pid : Option Nat)
    (gunicorn_pid : Nat) :
    (sigterm_handler alive nginx_pid gunicorn_pid).exit_code = 0 ∧
    (sigterm_handler alive nginx_pid gunicorn_pid).delivered =
      (match nginx_pid with
        | some p => if alive p then [(p, USignal.sigquit)] else []
        | Option.none => []) ++
      (if alive gunicorn_pid then [(gunicorn_pid, USignal.sigterm)] else []) := by
  constructor
  · rfl
  · cases nginx_pid with
    | none =>
      by_cases hg : alive gunicorn_pid <;>
        simp [sigterm_handler, os_kill, hg]
    | some p =>
      by_cases hp : alive p <;> by_cases hg : alive gunicorn_pid <;>
        simp [sigterm_handler, os_kill, hp, hg]

/-! ## Trainer: save step (sagemaker_containers/trainer.py lines 19-32) -/

/-- A save call observed during sagemaker_containers.trainer.train: either
the framework module save applied to (model, model output directory), or
the model object save applied to a file path. -/
inductive SaveEffect (V : Type) : Type
  | frameworkSave (model : V) (dir : String) : SaveEffect V
  | modelSave (model : V) (path : String) : SaveEffect V

/-- Embeds the save step of sagemaker_containers.trainer.train
(sagemaker_containers/trainer.py lines 19-32). The model argument is the
value returned by the framework train entry point, Option.none standing
for a falsy/absent value; has_save tells whether hasattr(framework, save)
holds. A falsy model yields no save call; otherwise the framework save is
called with (model, model_dir) when present, and the model save with
os.path.join(model_dir, saved_model) when not. -/
def trainer_train_saves {V : Type} (model : Option V) (has_save : Bool)
    (model_dir : String) : List (SaveEffect V) :=
  match model with
  | Option.none => []
  | some m =>
    if has_save then [SaveEffect.frameworkSave m model_dir]
    else [SaveEffect.modelSave m (pathJoin model_dir "saved_model")]

/-- Claim C4: when the user train entry point returns a falsy/absent model
no save step occurs; when it returns a model and the loaded module exposes
a save attribute, the module save is called once with the pair
(model, model output directory); otherwise the model own save is called
once with the fixed path model_dir/saved_model. -/
theorem trainer_save_step_correct {V : Type} (has_save : Bool) (model_dir : String) :
    (trainer_train_saves (Option.none : Option V) has_save model_dir = []) ∧
    (∀ m : V, trainer_train_saves (some m) true model_dir =
      [SaveEffect.frameworkSave m model_dir]) ∧
    (∀ m : V, trainer_train_saves (some m) false model_dir =
      [SaveEffect.modelSave m (pathJoin model_dir "saved_model")]) := by
  refine ⟨rfl, fun m => rfl, fun m => rfl⟩

/-! ## Training driver: success/failure markers (container_support/environment.py lines 212-254) -/

/-- Outcome of the body of the TrainingEnvironment.train try block
(metrics start, module download, import, parameter matching, user train
call): Option.none for normal completion, some (message, stack trace) for
an exception with its str rendering and traceback.format_exc text. -/
def TrainPhaseOutcome : Type := Option (String × String)

/-- The file writes and re-raise behaviour of one TrainingEnvironment.train
call: the list of (path, content) files written, and the exception
re-raised to the caller, when any. -/
structure TrainRunResult where
  writes : List (String × String)
  reraised : Option (String × String)

/-- Embeds TrainingEnvironment.train together with write_success_file and
write_failure_file (container_support/environment.py lines 212-254).
On normal completion an empty file named success is written under
base_dir/output. On an exception, the failure file under base_dir/output
receives the formatted message
uncaught exception during training: MSG newline TRACE newline, and the
same exception is re-raised. -/
def training_env_train (outcome : TrainPhaseOutcome) (base_dir : String) :
    TrainRunResult :=
  let output_dir := pathJoin base_dir "output"
  match outcome with
  | Option.none => ⟨[(pathJoin output_dir "success", "")], Option.none⟩
  | some (emsg, trc) =>
    let message := "uncaught exception during training: " ++ emsg ++ "\n" ++ trc ++ "\n"
    ⟨[(pathJoin output_dir "failure", message)], some (emsg, trc)⟩

/-- Claim C5: for every exception raised during the training phase, the
driver writes exactly one failure marker file under the output directory
whose content contains the exception message and the full stack trace as
substrings, and re-raises the same exception; on normal completion it
writes exactly one empty success marker file under the output directory
and raises nothing. -/
theorem training_env_train_markers (base_dir emsg trc : String) :
    (training_env_train Option.none base_dir =
      ⟨[(pathJoin (pathJoin base_dir "output") "success", "")], Option.none⟩) ∧
    ((training_env_train (some (emsg, trc)) base_dir).reraised = some (emsg, trc) ∧
      ∃ content,
        (training_env_train (some (emsg, trc)) base_dir).writes =
          [(pathJoin (pathJoin base_dir "output") "failure", content)] ∧
        (∃ pre post, content = pre ++ emsg ++ post) ∧
        (∃ pre post, content = pre ++ trc ++ post)) := by
  refine ⟨rfl, rfl, "uncaught exception during training: " ++ emsg ++ "\n" ++ trc ++ "\n",
    rfl, ⟨"uncaught exception during training: ", "\n" ++ trc ++ "\n", ?_⟩,
    ⟨"uncaught exception during training: " ++ emsg ++ "\n", "\n", ?_⟩⟩
  · simp [String.append_assoc]
  · simp [String.append_assoc]

/-! ## Serving: invocation route and error mapping (container_support/serving.py lines 15-20, 91-151, 176-192) -/

/-- Content-type constants of container_support/serving.py lines 15-20. -/
def JSON_CONTENT_TYPE : String := "application/json"

def CSV_CONTENT_TYPE : String := "text/csv"

def UTF8_CONTENT_TYPES : List String := [JSON_CONTENT_TYPE, CSV_CONTENT_TYPE]

/-- The exceptions a transform function can raise, as classified by
Server._handle_invoke_exception: the three typed errors declared at
container_support/serving.py lines 176-192, and any other exception with
its message attribute. -/
inductive InvokeError : Type
  | unsupportedContentType (ct : String) : InvokeError
  | unsupportedAcceptType (ct : String) : InvokeError
  | unsupportedInputShape (n : Nat) : InvokeError
  | other (msg : String) : InvokeError

/-- The message attribute each exception class sets in its constructor
(container_support/serving.py lines 176-192); for any other exception it
is the message the exception carries. -/
def InvokeError.message : InvokeError → String
  | InvokeError.unsupportedContentType ct => "Requested unsupported ContentType: " ++ ct
  | InvokeError.unsupportedAcceptType ct => "Requested unsupported ContentType in Accept: " ++ ct
  | InvokeError.unsupportedInputShape n =>
    "Model can have only 1 input data, but it has: " ++ toString n
  | InvokeError.other msg => msg

/-- One character of json.dumps string escaping. -/
def jsonEscapeChar (c : Char) : String :=
  if c = '"' then "\\\""
  else if c = '\\' then "\\\\"
  else if c = '\n' then "\\n"
  else if c = '\t' then "\\t"
  else if c = '\r' then "\\r"
  else String.singleton c

/-- Models json.dumps applied to a Python string: the JSON encoding of the
string, surrounded by double quotes with the special characters escaped. -/
def json_dumps_string (s : String) : String :=
  "\"" ++ String.join (s.toList.map jsonEscapeChar) ++ "\""

/-- Embeds Server._handle_invoke_exception (container_support/serving.py
lines 118-131): the JSON-encoded message is computed, then the exception
class selects status 415, 406 or 412; any other exception is logged and
re-raised. -/
def handle_invoke_exception (e : InvokeError) : Except InvokeError (Nat × String) :=
  let data := json_dumps_string e.message
  match e with
  | InvokeError.unsupportedContentType _ => Except.ok (415, data)
  | InvokeError.unsupportedAcceptType _ => Except.ok (406, data)
  | InvokeError.unsupportedInputShape _ => Except.ok (412, data)
  | InvokeError.other _ => Except.error e

/-- Embeds Server._default_error_handler (container_support/serving.py
lines 143-151): the generic Flask error handler logs and answers an empty
body with status 500; the worker process keeps running. -/
def default_error_handler (_e : InvokeError) : Nat × String := (500, "")

/-- The status and body an /invocations request answers when the transform
function raised e: the mapped status from Server._handle_invoke_exception
when e is one of the three typed errors, else the re-raised exception is
caught by the registered generic handler. -/
def invoke_exception_response (e : InvokeError) : Nat × String :=
  match handle_invoke_exception e with
  | Except.ok r => r
  | Except.error e2 => default_error_handler e2

/-- Claim C6: an unsupported input content-type error answers 415, an
unsupported requested output content-type error answers 406, an invalid
input shape error answers 412, each with the JSON-encoded message as body;
any other exception is re-raised unchanged by the exception mapper and the
generic handler then answers 500 with an empty body, the worker staying up
(the response function is total). -/
theorem invoke_exception_mapping (ct act : String) (n : Nat) (msg : String) :
    invoke_exception_response (InvokeError.unsupportedContentType ct) =
      (415, json_dumps_string ("Requested unsupported ContentType: " ++ ct)) ∧
    invoke_exception_response (InvokeError.unsupportedAcceptType act) =
      (406, json_dumps_string ("Requested unsupported ContentType in Accept: " ++ act)) ∧
    invoke_exception_response (InvokeError.unsupportedInputShape n) =
      (412, json_dumps_string ("Model can have only 1 input data, but it has: " ++ toString n)) ∧
    handle_invoke_exception (InvokeError.other msg) =
      Except.error (InvokeError.other msg) ∧
    invoke_exception_response (InvokeError.other msg) = (500, "") :=
  ⟨rfl, rfl, rfl, rfl, rfl⟩

/-- The request content handed to the transform function: a UTF-8 decoded
text for the declared textual content types, the raw request bytes
otherwise. -/
inductive Content (B : Type) : Type
  | text (s : String) : Content B
  | raw (b : B) : Content B

/-- An HTTP response as assembled by Server._invoke: status code, body and
mimetype. -/
structure HttpResponse where
  status : Nat
  body : String
  mimetype : String

/-- ASCII lowercasing of one character, used for case-insensitive header
name comparison. -/
def asciiLower (c : Char) : Char :=
  if 'A' ≤ c ∧ c ≤ 'Z' then Char.ofNat (c.toNat + 32) else c

/-- ASCII lowercasing of a string. -/
def lowerStr (s : String) : String := String.mk (s.data.map asciiLower)

/-- Models werkzeug case-insensitive header lookup request.headers.get:
the first header whose name matches up to ASCII case. -/
def headers_get (hs : List (String × String)) (name : String) : Option String :=
  (hs.find? (fun kv => lowerStr kv.1 == lowerStr name)).map (fun kv => kv.2)

/-- Embeds Server._invoke (container_support/serving.py lines 91-116) for a
transform function over model type M and raw body type B. The input
content type is read from the ContentType header, falling back to
Content-Type, falling back to application/json; the requested output type
from Accept, defaulting to application/json; the body is UTF-8 decoded
exactly when the input content type is in UTF8_CONTENT_TYPES; the
transform function is called with (model, content, input content type,
requested output type); success yields status 200 with the returned body
and mimetype, a raised typed error is mapped by handle_invoke_exception to
a status and JSON body, and any other exception propagates to the Flask
error handler. -/
def server_invoke {M B : Type}
    (transform : M → Content B → String → String → Except InvokeError (String × String))
    (model : M) (hs : List (String × String)) (body : B) (decode : B → String) :
    Except InvokeError HttpResponse :=
  let input_content_type :=
    (headers_get hs "ContentType").getD ((headers_get hs "Content-Type").getD JSON_CONTENT_TYPE)
  let requested_output_content_type := (headers_get hs "Accept").getD JSON_CONTENT_TYPE
  let content : Content B :=
    if input_content_type ∈ UTF8_CONTENT_TYPES then Content.text (decode body)
    else Content.raw body
  match transform model content input_content_type requested_output_content_type with
  | Except.ok (response_data, output_content_type) =>
    Except.ok ⟨200, response_data, output_content_type⟩
  | Except.error e =>
    match handle_invoke_exception e with
    | Except.ok (st, d) => Except.ok ⟨st, d, JSON_CONTENT_TYPE⟩
    | Except.error e2 => Except.error e2

/-- Claim C7: for every POST /invocations request, the input content type
is read under the ContentType then the Content-Type header name, the body
is UTF-8 decoded exactly when that type is application/json or text/csv
and passed raw otherwise, the transform function receives (model, content,
input content type, Accept header value defaulting to application/json),
and when the transform function succeeds the response is status 200 with
the body and content-type pair it produced. -/
theorem server_invoke_success {M B : Type}
    (transform : M → Content B → String → String → Except InvokeError (String × String))
    (model : M) (hs : List (String × String)) (body : B) (decode : B → String)
    (d oct : String)
    (h : transform model
      (if (match headers_get hs "ContentType" with
            | some v => v
            | Option.none => match headers_get hs "Content-Type" with
              | some w => w
              | Option.none => "application/json") = "application/json" ∨
          (match headers_get hs "ContentType" with
            | some v => v
            | Option.none => match headers_get hs "Content-Type" with
              | some w => w
              | Option.none => "application/json") = "text/csv"
        then Content.text (decode body) else Content.raw body)
      (match headers_get hs "ContentType" with
        | some v => v
        | Option.none => match headers_get hs "Content-Type" with
          | some w => w
          | Option.none => "application/json")
      (match headers_get hs "Accept" with
        | some a => a
        | Option.none => "application/json") = Except.ok (d, oct)) :
    server_invoke transform model hs body decode = Except.ok ⟨200, d, oct⟩ := by
  have hct : ∀ o : Option String, ∀ dflt : String, o.getD dflt =
      (match o with | some v => v | Option.none => dflt) := by
    intro o dflt; cases o <;> rfl
  rw [server_invoke]
  simp only [hct, JSON_CONTENT_TYPE, UTF8_CONTENT_TYPES, CSV_CONTENT_TYPE,
    List.mem_cons, List.mem_singleton, List.not_mem_nil, or_false] at h ⊢
  rw [h]

theorem server_invoke_success_witness :
    ((fun (_ : Unit) (_ : Content Unit) (_ : String) (acc : String) =>
        (Except.ok ("out", acc) : Except InvokeError (String × String)))
      ()
      (if (match headers_get [] "ContentType" with
            | some v => v
            | Option.none => match headers_get [] "Content-Type" with
              | some w => w
              | Option.none => "application/json") = "application/json" ∨
          (match headers_get [] "ContentType" with
            | some v => v
            | Option.none => match headers_get [] "Content-Type" with
              | some w => w
              | Option.none => "application/json") = "text/csv"
        then Content.text ((fun _ => "") ()) else Content.raw ())
      (match headers_get [] "ContentType" with
        | some v => v
        | Option.none => match headers_get [] "Content-Type" with
          | some w => w
          | Option.none => "application/json")
      (match headers_get [] "Accept" with
        | some a => a
        | Option.none => "application/json") = Except.ok ("out", "application/json")) ∧
    server_invoke
      (fun (_ : Unit) (_ : Content Unit) (_ : String) (acc : String) =>
        (Except.ok ("out", acc) : Except InvokeError (String × String)))
      () [] () (fun _ => "") = Except.ok ⟨200, "out", "application/json"⟩ :=
  ⟨rfl, server_invoke_success _ () [] () (fun _ => "") "out" "application/json" rfl⟩

/-- Claim C10: when neither a ContentType nor a Content-Type header is
present on an /invocations request the input content type handed to the
transform function is application/json, and when both headers are present
the ContentType header value takes precedence; this is observed through a
probe transform function that answers with the input content type it
received. -/
theorem invoke_content_type_precedence (hs : List (String × String)) :
    (headers_get hs "ContentType" = Option.none →
      headers_get hs "Content-Type" = Option.none →
      server_invoke
        (fun (_ : Unit) (_ : Content Unit) (ict : String) (_ : String) =>
          (Except.ok (ict, "probe") : Except InvokeError (String × String)))
        () hs () (fun _ => "") = Except.ok ⟨200, "application/json", "probe"⟩) ∧
    (∀ v w, headers_get hs "ContentType" = some v →
      headers_get hs "Content-Type" = some w →
      server_invoke
        (fun (_ : Unit) (_ : Content Unit) (ict : String) (_ : String) =>
          (Except.ok (ict, "probe") : Except InvokeError (String × String)))
        () hs () (fun _ => "") = Except.ok ⟨200, v, "probe"⟩) := by
  constructor
  · intro h1 h2
    simp [server_invoke, h1, h2, JSON_CONTENT_TYPE, UTF8_CONTENT_TYPES, CSV_CONTENT_TYPE]
  · intro v w h1 h2
    simp [server_invoke, h1, h2]

theorem invoke_content_type_precedence_witness :
    (headers_get [] "ContentType" = Option.none ∧
      headers_get [] "Content-Type" = Option.none ∧
      server_invoke
        (fun (_ : Unit) (_ : Content Unit) (ict : String) (_ : String) =>
          (Except.ok (ict, "probe") : Except InvokeError (String × String)))
        () [] () (fun _ => "") = Except.ok ⟨200, "application/json", "probe"⟩) ∧
    (headers_get [("ContentType", "a"), ("Content-Type", "b")] "ContentType" = some "a" ∧
      headers_get [("ContentType", "a"), ("Content-Type", "b")] "Content-Type" = some "b" ∧
      server_invoke
        (fun (_ : Unit) (_ : Content Unit) (ict : String) (_ : String) =>
          (Except.ok (ict, "probe") : Except InvokeError (String × String)))
        () [("ContentType", "a"), ("Content-Type", "b")] () (fun _ => "") =
        Except.ok ⟨200, "a", "probe"⟩) :=
  ⟨⟨rfl, rfl, (invoke_content_type_precedence []).1 rfl rfl⟩,
   ⟨by decide, by decide,
    (invoke_content_type_precedence [("ContentType", "a"), ("Content-Type", "b")]).2
      "a" "b" (by decide) (by decide)⟩⟩

/-! ## Configuration resolution (container_support/environment.py lines 19-193) -/

/-- A Python value as stored in the decoded configuration dictionaries. -/
inductive PyVal : Type
  | str (s : String) : PyVal
  | int (n : Int) : PyVal
  | pybool (b : Bool) : PyVal
  | list (xs : List PyVal) : PyVal
  | dict (entries : List (String × PyVal)) : PyVal
  | pynone : PyVal

/-- The string a PyVal holds when it is a string (configuration fields used
as strings by the constructor). -/
def PyVal.asStr : PyVal → String
  | PyVal.str s => s
  | _ => ""

/-- Python len of a configuration value. -/
def PyVal.pyLen : PyVal → Nat
  | PyVal.list xs => xs.length
  | PyVal.str s => s.length
  | PyVal.dict entries => entries.length
  | _ => 0

/-- Python dict.get with a default. -/
def pyGet (m : List (String × PyVal)) (k : String) (dflt : PyVal) : PyVal :=
  (alookup m k).getD dflt

/-- The distinct failures of configuration resolution, named as in the
specification taxonomy; they model the concrete Python exceptions the
constructor raises: configNotFound is the IOError raised by open on a
missing file, configParseError the ValueError raised by json decoding of a
malformed file or hyperparameter value, missingHyperparameter the KeyError
raised by indexing the hyperparameter dict with an absent required key. -/
inductive ConfigError : Type
  | configNotFound (path : String) : ConfigError
  | configParseError (path : String) : ConfigError
  | missingHyperparameter (key : String) : ConfigError

/-- On-disk state of one JSON configuration file: absent, present with
malformed JSON content, or present with the given decoded content. -/
inductive FileContent (α : Type) : Type
  | missing : FileContent α
  | malformed : FileContent α
  | parsed (a : α) : FileContent α

/-- Embeds ContainerEnvironment._load_config (container_support/environment.py
lines 109-112): open raises on a missing file and json.load raises on
malformed content, otherwise the decoded content is returned. -/
def load_config {α : Type} (path : String) : FileContent α → Except ConfigError α
  | FileContent.missing => Except.error (ConfigError.configNotFound path)
  | FileContent.malformed => Except.error (ConfigError.configParseError path)
  | FileContent.parsed a => Except.ok a

/-- Embeds TrainingEnvironment._deserialize_hyperparameters
(container_support/environment.py lines 234-236): every hyperparameter
value is a serialized JSON string decoded with json.loads; a value that
fails to decode raises a parse error while processing the hyperparameters
file. -/
def deserialize_hyperparameters (path : String) (jsonLoads : String → Option PyVal) :
    List (String × String) → Except ConfigError (List (String × PyVal))
  | [] => Except.ok []
  | (k, s) :: rest =>
    match jsonLoads s with
    | Option.none => Except.error (ConfigError.configParseError path)
    | some v =>
      match deserialize_hyperparameters path jsonLoads rest with
      | Except.error e => Except.error e
      | Except.ok tail => Except.ok ((k, v) :: tail)

/-- Embeds TrainingEnvironment._get_channel_dir
(container_support/environment.py lines 256-282): when the hyperparameter
sagemaker_s3_uri_CHANNEL is present and the suffixed directory exists, the
suffixed directory is used, otherwise input_dir/data/CHANNEL. -/
def get_channel_dir (input_dir : String) (hp : List (String × PyVal))
    (dirExists : String → Bool) (channel : String) : String :=
  match alookup hp ("sagemaker_s3_uri_" ++ channel) with
  | some suffix =>
    let channel_dir := pathJoin (pathJoin (pathJoin input_dir "data") channel) suffix.asStr
    if dirExists channel_dir then channel_dir
    else pathJoin (pathJoin input_dir "data") channel
  | Option.none => pathJoin (pathJoin input_dir "data") channel

/-- The JobContext snapshot TrainingEnvironment.__init__ builds, together
with the environment variables it sets for child processes. -/
structure TrainingEnv where
  base_dir : String
  model_dir : String
  code_dir : String
  input_dir : String
  input_config_dir : String
  output_dir : String
  resource_config : List (String × PyVal)
  hyperparameters : List (String × PyVal)
  network_interface_name : PyVal
  current_host : PyVal
  hosts : PyVal
  output_data_dir : String
  channels : List (String × PyVal)
  channel_dirs : List (String × String)
  user_script_name : PyVal
  user_script_archive : PyVal
  enable_cloudwatch_metrics : PyVal
  container_log_level : Option PyVal
  sagemaker_region : PyVal
  distributed : Bool
  kwargs_for_training : List (String × PyVal)
  env_writes : List (String × String)

/-- Embeds TrainingEnvironment.__init__ together with the inherited
ContainerEnvironment.__init__ (container_support/environment.py lines
35-68 and 123-193). The three configuration files are given as FileContent
values, json.loads as a decoding oracle, os.path.exists on directories as
a predicate, and the cpu/gpu probes as counts. Loads happen in source
order: resourceconfig.json, hyperparameters.json with value
deserialization, inputdataconfig.json; the required hyperparameter
sagemaker_region is then indexed, raising KeyError when absent. -/
def trainingEnvInit (base_dir : String)
    (rcf : FileContent (List (String × PyVal)))
    (hpf : FileContent (List (String × String)))
    (idcf : FileContent (List (String × PyVal)))
    (jsonLoads : String → Option PyVal) (dirExists : String → Bool)
    (cpus gpus : Nat) : Except ConfigError TrainingEnv :=
  let model_dir := pathJoin base_dir "model"
  let code_dir := pathJoin base_dir "code"
  let input_dir := pathJoin base_dir "input"
  let input_config_dir := pathJoin input_dir "config"
  let output_dir := pathJoin base_dir "output"
  match load_config (pathJoin input_config_dir "resourceconfig.json") rcf with
  | Except.error e => Except.error e
  | Except.ok rc =>
    match load_config (pathJoin input_config_dir "hyperparameters.json") hpf with
    | Except.error e => Except.error e
    | Except.ok hpRaw =>
      match deserialize_hyperparameters
          (pathJoin input_config_dir "hyperparameters.json") jsonLoads hpRaw with
      | Except.error e => Except.error e
      | Except.ok hp =>
        let network_interface_name := pyGet rc "network_interface_name" (PyVal.str "ethwe")
        let current_host := pyGet rc "current_host" (PyVal.str "")
        let hosts := pyGet rc "hosts" (PyVal.list [])
        let output_data_dir := pathJoin (pathJoin output_dir "data")
          (if hosts.pyLen > 1 then current_host.asStr else "")
        match load_config (pathJoin input_config_dir "inputdataconfig.json") idcf with
        | Except.error e => Except.error e
        | Except.ok channels =>
          let channel_dirs := channels.map
            (fun kv => (kv.1, get_channel_dir input_dir hp dirExists kv.1))
          let user_script_name := pyGet hp "sagemaker_program" (PyVal.str "")
          let user_script_archive := pyGet hp "sagemaker_submit_directory" (PyVal.str "")
          let enable_cloudwatch_metrics :=
            pyGet hp "sagemaker_enable_cloudwatch_metrics" (PyVal.pybool false)
          let container_log_level := alookup hp "sagemaker_container_log_level"
          let job_name := pyGet hp "sagemaker_job_name" (PyVal.str "")
          match alookup hp "sagemaker_region" with
          | Option.none =>
            Except.error (ConfigError.missingHyperparameter "sagemaker_region")
          | some region =>
            Except.ok
              { base_dir := base_dir
                model_dir := model_dir
                code_dir := code_dir
                input_dir := input_dir
                input_config_dir := input_config_dir
                output_dir := output_dir
                resource_config := rc
                hyperparameters := hp
                network_interface_name := network_interface_name
                current_host := current_host
                hosts := hosts
                output_data_dir := output_data_dir
                channels := channels
                channel_dirs := channel_dirs
                user_script_name := user_script_name
                user_script_archive := user_script_archive
                enable_cloudwatch_metrics := enable_cloudwatch_metrics
                container_log_level := container_log_level
                sagemaker_region := region
                distributed := hosts.pyLen > 1
                kwargs_for_training :=
                  [("hyperparameters", PyVal.dict hp),
                   ("input_data_config", PyVal.dict channels),
                   ("channel_input_dirs", PyVal.dict
                     (channel_dirs.map (fun kv => (kv.1, PyVal.str kv.2)))),
                   ("output_data_dir", PyVal.str output_data_dir),
                   ("model_dir", PyVal.str model_dir),
                   ("num_gpus", PyVal.int gpus),
                   ("num_cpus", PyVal.int cpus),
                   ("hosts", hosts),
                   ("current_host", current_host)]
                env_writes :=
                  [("JOB_NAME", job_name.asStr),
                   ("CURRENT_HOST", current_host.asStr),
                   ("SAGEMAKER_REGION", region.asStr)] }

/-- Claim C9: configuration resolution fails with the missing-hyperparameter
error exactly named for the absent required key sagemaker_region when that
key is not in the hyperparameter map, with the config-not-found error for
a required configuration file that is absent, and with the config-parse
error for a required configuration file whose JSON content is malformed,
each error step being reached in source load order. -/
theorem config_resolution_errors (base : String) (jl : String → Option PyVal)
    (de : String → Bool) (cpus gpus : Nat)
    (hpf : FileContent (List (String × String)))
    (idcf : FileContent (List (String × PyVal)))
    (rc idcm hp : List (String × PyVal)) (hpRaw : List (String × String)) :
    (trainingEnvInit base FileContent.missing hpf idcf jl de cpus gpus =
      Except.error (ConfigError.configNotFound
        (pathJoin (pathJoin (pathJoin base "input") "config") "resourceconfig.json"))) ∧
    (trainingEnvInit base FileContent.malformed hpf idcf jl de cpus gpus =
      Except.error (ConfigError.configParseError
        (pathJoin (pathJoin (pathJoin base "input") "config") "resourceconfig.json"))) ∧
    (trainingEnvInit base (FileContent.parsed rc) FileContent.missing idcf jl de cpus gpus =
      Except.error (ConfigError.configNotFound
        (pathJoin (pathJoin (pathJoin base "input") "config") "hyperparameters.json"))) ∧
    (trainingEnvInit base (FileContent.parsed rc) FileContent.malformed idcf jl de cpus gpus =
      Except.error (ConfigError.configParseError
        (pathJoin (pathJoin (pathJoin base "input") "config") "hyperparameters.json"))) ∧
    (deserialize_hyperparameters
        (pathJoin (pathJoin (pathJoin base "input") "config") "hyperparameters.json")
        jl hpRaw = Except.ok hp →
      trainingEnvInit base (FileContent.parsed rc) (FileContent.parsed hpRaw)
        FileContent.missing jl de cpus gpus =
      Except.error (ConfigError.configNotFound
        (pathJoin (pathJoin (pathJoin base "input") "config") "inputdataconfig.json"))) ∧
    (deserialize_hyperparameters
        (pathJoin (pathJoin (pathJoin base "input") "config") "hyperparameters.json")
        jl hpRaw = Except.ok hp →
      alookup hp "sagemaker_region" = Option.none →
      trainingEnvInit base (FileContent.parsed rc) (FileContent.parsed hpRaw)
        (FileContent.parsed idcm) jl de cpus gpus =
      Except.error (ConfigError.missingHyperparameter "sagemaker_region")) := by
  refine ⟨rfl, rfl, rfl, rfl, fun hde => ?_, fun hde hreg => ?_⟩
  · simp only [trainingEnvInit, load_config, hde]
  · simp only [trainingEnvInit, load_config, hde, hreg]

theorem config_resolution_errors_witness :
    (deserialize_hyperparameters
        (pathJoin (pathJoin (pathJoin "/opt/ml" "input") "config") "hyperparameters.json")
        (fun _ => some (PyVal.str "x")) [] = Except.ok [] ∧
      trainingEnvInit "/opt/ml" (FileContent.parsed []) (FileContent.parsed [])
        FileContent.missing (fun _ => some (PyVal.str "x")) (fun _ => false) 4 0 =
      Except.error (ConfigError.configNotFound
        (pathJoin (pathJoin (pathJoin "/opt/ml" "input") "config") "inputdataconfig.json"))) ∧
    (alookup ([] : List (String × PyVal)) "sagemaker_region" = Option.none ∧
      trainingEnvInit "/opt/ml" (FileContent.parsed []) (FileContent.parsed [])
        (FileContent.parsed []) (fun _ => some (PyVal.str "x")) (fun _ => false) 4 0 =
      Except.error (ConfigError.missingHyperparameter "sagemaker_region")) :=
  ⟨⟨rfl, (config_resolution_errors "/opt/ml" (fun _ => some (PyVal.str "x"))
      (fun _ => false) 4 0 (FileContent.parsed []) FileContent.missing
      [] [] [] []).2.2.2.2.1 rfl⟩,
   ⟨rfl, (config_resolution_errors "/opt/ml" (fun _ => some (PyVal.str "x"))
      (fun _ => false) 4 0 (FileContent.parsed []) (FileContent.parsed [])
      [] [] [] []).2.2.2.2.2 rfl rfl⟩⟩
